import Mathlib

/-!
Verification of the openapi-zod schema compiler against its
natural-language specification.

The definitions below are a shallow embedding of the TypeScript sources:

* `src/lib/generateZodSchemas.ts` — the schema translator
  (`ZodSchemaGenerator`: `createZodSchema`, `createZodObjectFromProperties`,
  `createZodObjectFromParameters`, `stringifyDefault`, `generateSchemas`);
* `src/lib/utils.ts` — the name deriver (`StringUtils.createSchemaName`
  and friends);
* `src/lib/generateHandlerTypes.ts` — handler-type emission;
* `src/lib/generateClients.ts` — client-function emission.

JavaScript runtime values that can appear as a schema `default` are
modelled by the inductive type `Js`; JavaScript `Record` objects keyed by
strings are modelled by association lists together with `recordSet`, which
mirrors the semantics of a JS property assignment (overwrite in place,
insertion order preserved).  Thrown exceptions are modelled by `Except`.
String interpolation of numbers uses `intToJsString`, a model of the
JavaScript number-to-string conversion for integral values.
-/

namespace OpenApiZod

/-- JavaScript runtime values, as far as the generator can observe them
through `typeof` / `Array.isArray` / `=== null` / `=== undefined` checks.
`other` stands for the runtime kinds the generator does not handle
(function, symbol): `typeof` on them falls into the `default` branch of
`stringifyDefault` and `JSON.stringify` omits them. -/
inductive Js where
  | null : Js
  | undef : Js
  | str : String → Js
  | num : Int → Js
  | bool : Bool → Js
  | arr : List Js → Js
  | obj : List (String × Js) → Js
  | other : Js

/-- Decimal digit character, i.e. `'0' + d` (model of JS number printing). -/
def digitCharJs (d : Nat) : Char := Char.ofNat (48 + d)

/-- Decimal digit list of a natural number, most significant first
(model of the JavaScript `Number.prototype.toString` for integral values). -/
def natToJsChars (n : Nat) : List Char :=
  if _h : n < 10 then [digitCharJs n]
  else natToJsChars (n / 10) ++ [digitCharJs (n % 10)]
decreasing_by
  exact Nat.div_lt_self (by omega) (by omega)

/-- Model of the JavaScript string conversion of an integral number,
e.g. `5` becomes `"5"` and `-3` becomes `"-3"`. -/
def intToJsString (n : Int) : String :=
  if n < 0 then "-" ++ String.mk (natToJsChars (-n).toNat)
  else String.mk (natToJsChars n.toNat)

/-- Model of the JavaScript array method `join("")`: concatenate. -/
def strJoin : List String → String
  | [] => ""
  | s :: rest => s ++ strJoin rest

/-- Model of the JavaScript array method `join(sep)`. -/
def joinSep (sep : String) : List String → String
  | [] => ""
  | [s] => s
  | s :: s2 :: rest => s ++ sep ++ joinSep sep (s2 :: rest)

/-- Character-level worker for `jsSplit`. -/
def splitChars (sep : Char) : List Char → List (List Char)
  | [] => [[]]
  | c :: rest =>
      match splitChars sep rest with
      | h :: t => if c = sep then [] :: h :: t else (c :: h) :: t
      | [] => [[]]

/-- Model of the JavaScript string method `split(sep)` for a one-character
separator (the only form the generator uses): `"".split(sep)` is `[""]`,
and separators at the ends contribute empty segments. -/
def jsSplit (sep : Char) (s : String) : List String :=
  (splitChars sep s.data).map String.mk

/-- Model of the JavaScript string method `toUpperCase()` on the ASCII
strings the generator feeds it (HTTP method tokens). -/
def toUpperJs (s : String) : String := String.mk (s.data.map Char.toUpper)

/-- Model of `value.replace(/"/g, '\\"')`: escape every double quote. -/
def escQuotes (s : String) : String :=
  String.mk (s.data.foldr (fun c acc => if c = '"' then '\\' :: '"' :: acc else c :: acc) [])

/-- Model of the string escaping performed by `JSON.stringify` on the
characters the generator can actually emit (backslash, quote, and the
common control characters). -/
def jsonEscape (s : String) : String :=
  String.mk (s.data.foldr
    (fun c acc =>
      if c = '\\' then '\\' :: '\\' :: acc
      else if c = '"' then '\\' :: '"' :: acc
      else if c = '\n' then '\\' :: 'n' :: acc
      else if c = '\t' then '\\' :: 't' :: acc
      else if c = '\x0d' then '\\' :: 'r' :: acc
      else c :: acc) [])

/-- A JSON-quoted string literal as produced by `JSON.stringify` on a string. -/
def jsonStr (s : String) : String := "\"" ++ jsonEscape s ++ "\""

mutual

/-- Model of `JSON.stringify` on a `Js` value.  `none` models the calls
whose JavaScript result is `undefined` rather than a string (stringifying
`undefined`, a function or a symbol).  Cyclic object graphs — the only
inputs on which `JSON.stringify` throws — are not representable in the
inductive `Js`, so the `try/catch` in the source is unreachable here. -/
def jsonValue : Js → Option String
  | .null => some "null"
  | .undef => none
  | .other => none
  | .str s => some (jsonStr s)
  | .num n => some (intToJsString n)
  | .bool b => some (if b then "true" else "false")
  | .arr xs => some ("[" ++ joinSep "," (jsonArrayElems xs) ++ "]")
  | .obj fs => some ("\x7b" ++ joinSep "," (jsonObjFields fs) ++ "\x7d")

/-- Array elements under `JSON.stringify`: an undefined-like element is
rendered as `null`. -/
def jsonArrayElems : List Js → List String
  | [] => []
  | x :: xs => (jsonValue x).getD "null" :: jsonArrayElems xs

/-- Object fields under `JSON.stringify`: a field with an undefined-like
value is omitted. -/
def jsonObjFields : List (String × Js) → List String
  | [] => []
  | (k, v) :: fs =>
    match jsonValue v with
    | some s => (jsonStr k ++ ":" ++ s) :: jsonObjFields fs
    | none => jsonObjFields fs

end

/-- Model of `JSON.stringify` where the JS `undefined` result is rendered
as the sentinel text the caller would interpolate. -/
def jsonStringify (v : Js) : String := (jsonValue v).getD "undefined"

mutual

/-- Embeds `ZodSchemaGenerator.stringifyDefault` (generateZodSchemas.ts,
lines 202-229): `null` → `"null"`, `undefined` → `"undefined"`, strings are
quoted with quote escaping, numbers and booleans print their literal,
arrays recurse element-wise, plain objects go through `JSON.stringify`,
and any other runtime kind yields the sentinel `"undefined"`. -/
def stringifyDefault : Js → String
  | .null => "null"
  | .undef => "undefined"
  | .str s => "\"" ++ escQuotes s ++ "\""
  | .num n => intToJsString n
  | .bool b => if b then "true" else "false"
  | .arr xs => "[" ++ joinSep ", " (stringifyDefaultList xs) ++ "]"
  | .obj fs => jsonStringify (.obj fs)
  | .other => "undefined"

/-- Element-wise stringification used by the array branch of
`stringifyDefault` (`value.map((v) => this.stringifyDefault(v))`). -/
def stringifyDefaultList : List Js → List String
  | [] => []
  | x :: xs => stringifyDefault x :: stringifyDefaultList xs

end

/-- Embeds `StringUtils.capitalize` (utils.ts):
`str.charAt(0).toUpperCase() + str.slice(1)`. -/
def capitalize (s : String) : String :=
  match s.data with
  | [] => ""
  | c :: rest => String.mk (c.toUpper :: rest)

/-- One path segment as normalized by the name derivers: strip `{` and `}`
(`part.replace(/[{}]/g, "")`), split on `_`, capitalize each sub-token and
concatenate. -/
def normalizeSegment (part : String) : String :=
  let cleanPart := String.mk (part.data.filter (fun c => ¬ (c = '\x7b' ∨ c = '\x7d')))
  strJoin ((jsSplit '_' cleanPart).map capitalize)

/-- Embeds `StringUtils.createSchemaName` (utils.ts, lines 23-40): the
capitalized method, then every `/`-segment normalized (with an extra
`capitalize` of each already-capitalized segment, as in the source), then
the suffix.  Note the source does not filter out empty segments; they
contribute the empty string. -/
def createSchemaName (method path suffix : String) : String :=
  capitalize method
    ++ strJoin ((jsSplit '/' path).map (fun part => capitalize (normalizeSegment part)))
    ++ suffix

/-- Embeds `StringUtils.createRequestBodySchemaName`. -/
def createRequestBodySchemaName (method path : String) : String :=
  createSchemaName method path "RequestBody"

/-- Embeds `StringUtils.createResponseBodySchemaName`. -/
def createResponseBodySchemaName (method path : String) : String :=
  createSchemaName method path "ResponseBody"

/-- Embeds `StringUtils.createPathParamSchemaName`. -/
def createPathParamSchemaName (method path : String) : String :=
  createSchemaName method path "PathParams"

/-- Embeds `StringUtils.createQueryParamSchemaName`. -/
def createQueryParamSchemaName (method path : String) : String :=
  createSchemaName method path "QueryParams"

/-- Embeds `ClientGenerator.createClientFunctionName`
(generateClients.ts, lines 20-33): non-empty `/`-segments normalized and
concatenated, then `method` verbatim in front of the capitalized whole. -/
def createClientFunctionName (method path : String) : String :=
  let pathParts := (jsSplit '/' path).filter (fun p => p ≠ "")
  let normalizedPath := strJoin (pathParts.map normalizeSegment)
  method ++ capitalize normalizedPath

/-- Embeds `HandlerTypesGenerator.createHandlerName`
(generateHandlerTypes.ts): same as the client-function name with the
literal suffix `Handler`. -/
def createHandlerName (method path : String) : String :=
  let pathParts := (jsSplit '/' path).filter (fun p => p ≠ "")
  let normalizedPath := strJoin (pathParts.map normalizeSegment)
  method ++ capitalize normalizedPath ++ "Handler"

/-- Attributes common to every schema node (types.ts, `OpenApiSchemaBase`):
`nullable`, `default`, `description`.  `nullable` is read in the source
through `property.nullable || false`, collapsing absence and `false`, so it
is modelled as a plain `Bool`; `default` and `description` are compared
against `undefined`, so they are modelled as `Option`s. -/
structure CommonAttrs where
  nullable : Bool := false
  default : Option Js := none
  description : Option String := none

/-- The schema tree (types.ts, `OpenApiSchema`): a discriminated union over
the kinds string (with optional enum literal list, format, pattern and
length bounds), number/integer, boolean, array, object and `$ref`,
extended with `otherNode` for a node whose `type` tag is missing or not
one of the recognized kinds (the source dispatches by duck-typed checks
and falls through to `z.any()` on such nodes). -/
inductive SchemaNode where
  | strNode (format : Option String) (pattern : Option String)
      (minLength maxLength : Option Int) (enumVals : Option (List String))
      (common : CommonAttrs) : SchemaNode
  | numNode (isInt : Bool) (minimum maximum : Option Int)
      (common : CommonAttrs) : SchemaNode
  | boolNode (common : CommonAttrs) : SchemaNode
  | arrNode (items : SchemaNode) (minItems maxItems : Option Int)
      (common : CommonAttrs) : SchemaNode
  | objNode (properties : Option (List (String × SchemaNode)))
      (required : Option (List String)) (common : CommonAttrs) : SchemaNode
  | refNode (ref : String) (common : CommonAttrs) : SchemaNode
  | otherNode (common : CommonAttrs) : SchemaNode

/-- The common attributes of a node. -/
def SchemaNode.common : SchemaNode → CommonAttrs
  | .strNode _ _ _ _ _ c => c
  | .numNode _ _ _ c => c
  | .boolNode c => c
  | .arrNode _ _ _ c => c
  | .objNode _ _ c => c
  | .refNode _ c => c
  | .otherNode c => c

/-- Replaces the common attributes of a node, leaving the kind-specific
payload unchanged. -/
def SchemaNode.withCommon : SchemaNode → CommonAttrs → SchemaNode
  | .strNode f p mn mx e _, c => .strNode f p mn mx e c
  | .numNode i mn mx _, c => .numNode i mn mx c
  | .boolNode _, c => .boolNode c
  | .arrNode it mn mx _, c => .arrNode it mn mx c
  | .objNode ps req _, c => .objNode ps req c
  | .refNode r _, c => .refNode r c
  | .otherNode _, c => .otherNode c

/-- Embeds `resolveRef` (generateZodSchemas.ts, lines 24-26):
`ref.replace(/^#\/components\/schemas\//, "")`, i.e. drop the well-known
anchored prefix when present. -/
def resolveRef (ref : String) : String :=
  let pre := "#/components/schemas/"
  if pre.data.isPrefixOf ref.data then String.mk (ref.data.drop pre.data.length)
  else ref

/-- Embeds `ZodSchemaGenerator.createZodEnum` (lines 84-86). -/
def createZodEnum (values : List String) : String :=
  "z.enum([" ++ joinSep ", " (values.map (fun e => "\"" ++ e ++ "\"")) ++ "])"

/-- Embeds `ZodSchemaGenerator.createZodString` (lines 93-136): base
`z.string()`, then the format-specific check (the `switch` has no default
case, so an unknown format adds nothing; `if (schema.format)` also treats
the empty string as absent), then the custom pattern (again skipped when
falsy), then min/max length (`!== undefined`, so `0` counts). -/
def createZodString (format pattern : Option String) (minLength maxLength : Option Int) : String :=
  let z := "z.string()"
  let z := match format with
    | some "email" => z ++ ".email()"
    | some "uuid" => z ++ ".uuid()"
    | some "date-time" =>
        z ++ ".datetime(\x7b message: \"Invalid ISO date-time string\" \x7d)"
    | some "date" =>
        z ++ ".regex(/^\\d\x7b4\x7d-\\d\x7b2\x7d-\\d\x7b2\x7d$/, \x7b message: \"Invalid ISO date string (YYYY-MM-DD)\" \x7d)"
    | some "uri" => z ++ ".url()"
    | _ => z
  let z := match pattern with
    | some p => if p = "" then z else z ++ ".regex(new RegExp(\"" ++ escQuotes p ++ "\"))"
    | none => z
  let z := match minLength with
    | some n => z ++ ".min(" ++ intToJsString n ++ ")"
    | none => z
  match maxLength with
  | some n => z ++ ".max(" ++ intToJsString n ++ ")"
  | none => z

/-- Embeds `ZodSchemaGenerator.createZodNumber` (lines 143-162): base
`z.number()`, `.int()` when the type tag is `integer`, then min/max. -/
def createZodNumber (isInt : Bool) (minimum maximum : Option Int) : String :=
  let z := "z.number()"
  let z := if isInt then z ++ ".int()" else z
  let z := match minimum with
    | some n => z ++ ".min(" ++ intToJsString n ++ ")"
    | none => z
  match maximum with
  | some n => z ++ ".max(" ++ intToJsString n ++ ")"
  | none => z

/-- Embeds `ZodSchemaGenerator.createZodBoolean` (lines 164-166). -/
def createZodBoolean : String := "z.boolean()"

/-- Embeds `ZodSchemaGenerator.createZodRef` (lines 168-171): a deferred
(lazily evaluated) reference to the resolved component name. -/
def createZodRef (ref : String) : String :=
  "z.lazy(() => " ++ resolveRef ref ++ "Schema)"

/-- Embeds `ZodSchemaGenerator.createZodAny` (lines 173-175). -/
def createZodAny : String := "z.any()"

/-- Embeds `ZodSchemaGenerator.createZodObjectHelper` (lines 46-55):
quote each key and join with `", "` inside `z.object({...}).strict()`. -/
def createZodObjectHelper (keyValuePairs : List (String × String)) : String :=
  let zodObjectProperties := keyValuePairs.map (fun kv => "\"" ++ kv.1 ++ "\": " ++ kv.2)
  "z.object(\x7b" ++ joinSep ", " zodObjectProperties ++ "\x7d).strict()"

mutual

/-- Embeds `ZodSchemaGenerator.createZodSchema` (lines 236-275).  The
source dispatches by duck-typed checks in order: object, array,
string-with-enum, string, number/integer, boolean, `$ref`, and finally the
permissive `z.any()` for everything else; the inductive `SchemaNode` makes
the same dispatch a disjoint match.  Note that the enum branch is selected
before the plain-string branch, and that the JavaScript truthiness test
`schema.enum` accepts any array, so `enumVals` being present (even empty)
selects the enum branch. -/
def createZodSchema : SchemaNode → String
  | .objNode (some properties) required _ =>
      createZodObjectFromProperties properties required
  | .objNode none required _ =>
      createZodObjectFromProperties [] required
  | .arrNode items minItems maxItems _ => createZodArray items minItems maxItems
  | .strNode format pattern minLength maxLength enumVals _ =>
      match enumVals with
      | some vs => createZodEnum vs
      | none => createZodString format pattern minLength maxLength
  | .numNode isInt minimum maximum _ => createZodNumber isInt minimum maximum
  | .boolNode _ => createZodBoolean
  | .refNode ref _ => createZodRef ref
  | .otherNode _ => createZodAny
termination_by n => (sizeOf n, 0)

/-- Embeds `ZodSchemaGenerator.createZodArray` (lines 182-195): translate
the item schema, then min/max item bounds when declared. -/
def createZodArray (items : SchemaNode) (minItems maxItems : Option Int) : String :=
  let itemType := createZodSchema items
  let z := "z.array(" ++ itemType ++ ")"
  let z := match minItems with
    | some n => z ++ ".min(" ++ intToJsString n ++ ")"
    | none => z
  match maxItems with
  | some n => z ++ ".max(" ++ intToJsString n ++ ")"
  | none => z
termination_by (sizeOf items, 1)

/-- Embeds `ZodSchemaGenerator.createZodObjectFromProperties`
(lines 277-319): build each property's expression and combine through
`createZodObjectHelper`. -/
def createZodObjectFromProperties (properties : List (String × SchemaNode))
    (required : Option (List String)) : String :=
  createZodObjectHelper (zodPropertyPairs properties required)
termination_by (sizeOf properties, 3)

/-- The `Object.entries(properties).map` of
`createZodObjectFromProperties`, written as explicit recursion. -/
def zodPropertyPairs : List (String × SchemaNode) → Option (List String) →
    List (String × String)
  | [], _ => []
  | (key, value) :: rest, required =>
      (key, createZodObjectProperty required key value) :: zodPropertyPairs rest required
termination_by l _ => (sizeOf l, 2)

/-- Embeds the inner `createZodObjectProperty` closure of
`createZodObjectFromProperties` (lines 281-312): translate the property
schema, then append, in this order, `.nullable()` when the property is
nullable, `.optional()` when the property name is not in the parent's
required-name set (`required?.includes(propertyName) ?? false`),
`.default(...)` when a default is present and its stringification is not
the `"undefined"` sentinel, and `.describe(...)` when a description is
present. -/
def createZodObjectProperty (required : Option (List String)) (propertyName : String)
    (property : SchemaNode) : String :=
  let propertySchema := createZodSchema property
  let isRequired := match required with
    | some l => l.contains propertyName
    | none => false
  let s := if property.common.nullable then propertySchema ++ ".nullable()" else propertySchema
  let s := if !isRequired then s ++ ".optional()" else s
  let s := match property.common.default with
    | some d =>
        let defaultValue := stringifyDefault d
        if defaultValue ≠ "undefined" then s ++ ".default(" ++ defaultValue ++ ")" else s
    | none => s
  match property.common.description with
  | some d => s ++ ".describe(" ++ jsonStr d ++ ")"
  | none => s
termination_by (sizeOf property, 1)

end

/-- Embeds `OpenApiParameter` (types.ts plus the fields the generator
reads): name, location (`in`, one of `"path"`/`"query"`), schema, and the
optional `required`, `nullable`, `default`, `description` attributes. -/
structure OpenApiParameter where
  name : String
  location : String
  schema : SchemaNode
  required : Option Bool := none
  nullable : Option Bool := none
  default : Option Js := none
  description : Option String := none

/-- Embeds the inner `createZodObjectProperty` closure of
`createZodObjectFromParameters` (generateZodSchemas.ts, lines 322-350):
translate the parameter's schema, then append, in this order,
`.optional()` when the parameter is not required
(`parameter.required || false`), `.nullable()` when it is nullable,
`.default(...)` when a default is present and its stringification is not
the `"undefined"` sentinel, and `.describe(...)` when a description is
present. -/
def createZodObjectPropertyFromParameter (parameter : OpenApiParameter) : String :=
  let propertySchema := createZodSchema parameter.schema
  let isRequired := parameter.required.getD false
  let isNullable := parameter.nullable.getD false
  let s := if !isRequired then propertySchema ++ ".optional()" else propertySchema
  let s := if isNullable then s ++ ".nullable()" else s
  let s := match parameter.default with
    | some d =>
        let defaultValue := stringifyDefault d
        if defaultValue ≠ "undefined" then s ++ ".default(" ++ defaultValue ++ ")" else s
    | none => s
  match parameter.description with
  | some d => s ++ ".describe(" ++ jsonStr d ++ ")"
  | none => s

/-- Embeds `ZodSchemaGenerator.createZodObjectFromParameters`
(lines 321-360): each parameter becomes a property keyed by its name. -/
def createZodObjectFromParameters (parameters : List OpenApiParameter) : String :=
  createZodObjectHelper
    (parameters.map (fun parameter => (parameter.name, createZodObjectPropertyFromParameter parameter)))

/-- Embeds `OpenApiRequestBody` (types.ts).  `schema` collapses the
optional chain `requestBody.content?.["application/json"]?.schema`:
`none` models a missing JSON content schema. -/
structure OpenApiRequestBody where
  required : Bool
  schema : Option SchemaNode := none

/-- Embeds `OpenApiOperation` (types.ts).  `response200schema` collapses
`responses["200"]?.content?.["application/json"]?.schema`. -/
structure OpenApiOperation where
  requestBody : Option OpenApiRequestBody := none
  response200schema : Option SchemaNode := none
  parameters : Option (List OpenApiParameter) := none

/-- Embeds `OpenApiDocument` (types.ts): servers (`none` models an absent
field, which the source distinguishes from an empty list through the
truthiness check `!openApiDocument.servers`), the component schema mapping
(`components?.schemas`), and the ordered path → method → operation
mapping. -/
structure OpenApiDocument where
  servers : Option (List String) := none
  componentSchemas : Option (List (String × SchemaNode)) := none
  paths : Option (List (String × List (String × OpenApiOperation))) := none

/-- Embeds `iterateOverPaths` (lines 62-77) specialized to an accumulator:
fold the callback over every `(path, method, operation)` triple in
document order (path order, then declared method order). -/
def foldPaths {α : Type} (doc : OpenApiDocument) (init : α)
    (f : α → String → String → OpenApiOperation → α) : α :=
  match doc.paths with
  | none => init
  | some paths =>
      paths.foldl
        (fun acc pathItem =>
          pathItem.2.foldl (fun acc' methodOp => f acc' pathItem.1 methodOp.1 methodOp.2) acc)
        init

/-- Model of a JavaScript `Record<string, string>` property assignment
`record[k] = v`: overwrite in place when the key exists (JS objects keep
the original insertion position), append otherwise. -/
def recordSet (m : List (String × String)) (k v : String) : List (String × String) :=
  if m.any (fun kv => kv.1 == k) then
    m.map (fun kv => if kv.1 == k then (k, v) else kv)
  else
    m ++ [(k, v)]

/-- The request-body normalization of `ZodSchemaGenerator.generateSchemas`
(lines 379-391): a shallow copy of the schema node is taken
(`{ ...schema }`), and when the body is required and the schema is an
object, the copy's required-name set is forced to be present
(`schemaForZod.required = schemaForZod.required || []`); the document's
own node is never written to. -/
def requestBodySchemaForZod (bodyRequired : Bool) (schema : SchemaNode) : SchemaNode :=
  if bodyRequired then
    match schema with
    | .objNode props required c => .objNode props (some (required.getD [])) c
    | s => s
  else schema

/-- Embeds `ZodSchemaGenerator.generateSchemas` (lines 362-439): translate
every component schema, then synthesize request-body, response-body,
path-parameter and query-parameter schemas for every operation, each pass
assigning into the same `Record`. -/
def generateSchemas (doc : OpenApiDocument) : List (String × String) :=
  let zodSchemas : List (String × String) := []
  let zodSchemas := (doc.componentSchemas.getD []).foldl
    (fun acc kv => recordSet acc kv.1 (createZodSchema kv.2)) zodSchemas
  let zodSchemas := foldPaths doc zodSchemas (fun acc path method operation =>
    match operation.requestBody with
    | some requestBody =>
        match requestBody.schema with
        | some schema =>
            let schemaForZod := requestBodySchemaForZod requestBody.required schema
            recordSet acc (createRequestBodySchemaName method path) (createZodSchema schemaForZod)
        | none => acc
    | none => acc)
  let zodSchemas := foldPaths doc zodSchemas (fun acc path method operation =>
    match operation.response200schema with
    | some schema =>
        recordSet acc (createResponseBodySchemaName method path) (createZodSchema schema)
    | none => acc)
  let zodSchemas := foldPaths doc zodSchemas (fun acc path method operation =>
    match operation.parameters with
    | some parameters =>
        let pathParams := parameters.filter (fun p => p.location == "path")
        if pathParams.length > 0 then
          recordSet acc (createPathParamSchemaName method path)
            (createZodObjectFromParameters pathParams)
        else acc
    | none => acc)
  foldPaths doc zodSchemas (fun acc path method operation =>
    match operation.parameters with
    | some parameters =>
        let queryParams := parameters.filter (fun p => p.location == "query")
        if queryParams.length > 0 then
          recordSet acc (createQueryParamSchemaName method path)
            (createZodObjectFromParameters queryParams)
        else acc
    | none => acc)

/-- The per-operation type information shared by
`HandlerTypesGenerator.generateHandlerType` and
`ClientGenerator.generateClientType`: which synthesized schema names the
operation gives rise to (`none` models the JavaScript `undefined`). -/
structure OperationTypeInfo where
  requestType : Option String
  responseType : Option String
  pathParamsType : Option String
  queryParamsType : Option String

/-- Embeds the shared body of `generateHandlerType` / `generateClientType`
(generateHandlerTypes.ts lines 44-88, generateClients.ts lines 42-86):
the request-body name exists iff the operation declares a JSON request
body schema, the response name iff a 200 JSON response schema exists, the
path/query-parameter names iff some parameter has the location. -/
def generateOperationTypeInfo (method path : String) (operation : OpenApiOperation) :
    OperationTypeInfo :=
  let requestType := match operation.requestBody with
    | some requestBody =>
        match requestBody.schema with
        | some _ => some (createRequestBodySchemaName method path)
        | none => none
    | none => none
  let responseType := match operation.response200schema with
    | some _ => some (createResponseBodySchemaName method path)
    | none => none
  let pathParamsType := match operation.parameters with
    | some parameters =>
        if parameters.any (fun p => p.location == "path") then
          some (createPathParamSchemaName method path)
        else none
    | none => none
  let queryParamsType := match operation.parameters with
    | some parameters =>
        if parameters.any (fun p => p.location == "query") then
          some (createQueryParamSchemaName method path)
        else none
    | none => none
  ⟨requestType, responseType, pathParamsType, queryParamsType⟩

/-- Embeds `HandlerTypesGenerator.generateTypes` (generateHandlerTypes.ts,
lines 117-142): one `export type ... = Handler<...>;` line per operation.
An absent request or response type is interpolated as the literal text
`undefined` (JavaScript template-literal semantics), and absent parameter
types fall back to `{}`.  The server list is never consulted. -/
def generateHandlerTypes (doc : OpenApiDocument) : List String :=
  match doc.paths with
  | none => []
  | some _ =>
      foldPaths doc [] (fun fileLines path method operation =>
        let name := createHandlerName method path
        let info := generateOperationTypeInfo method path operation
        let pathParamsTypeString := match info.pathParamsType with
          | some t => t
          | none => "\x7b\x7d"
        let queryParamsTypeString := match info.queryParamsType with
          | some t => t
          | none => "\x7b\x7d"
        fileLines ++
          ["export type " ++ name ++ " = Handler<" ++ (info.requestType.getD "undefined")
            ++ ", " ++ pathParamsTypeString ++ ", " ++ queryParamsTypeString ++ ", "
            ++ (info.responseType.getD "undefined") ++ ">;"])

/-- JavaScript exceptions thrown by the generator entry points:
`genericError` models a plain `new Error(...)`, `typeError` the implicit
`TypeError` of reading a property of `undefined`, and `validationError`
the repository's `ValidationError` class (defined in
`src/lib/errors/ValidationError.ts` but never thrown by these
generators). -/
inductive JsError where
  | genericError (message : String)
  | typeError (message : String)
  | validationError (message : String)
deriving DecidableEq

/-- Embeds `ClientGenerator.generateClients` (generateClients.ts, lines
115-180).  No declared paths short-circuits to an empty output; an absent
`servers` field throws a plain `Error`; an empty server list reaches
`servers[0].url` and throws a `TypeError`; otherwise the first server's
URL becomes the default base URL and, per operation, an args interface
plus a client function declaration are emitted. -/
def generateClients (doc : OpenApiDocument) : Except JsError (List String) :=
  match doc.paths with
  | none => .ok []
  | some _ =>
      match doc.servers with
      | none => .error (.genericError "No servers found in OpenAPI document")
      | some servers =>
          match servers with
          | [] => .error (.typeError "Cannot read properties of undefined (reading 'url')")
          | baseUrl :: _ =>
              .ok (foldPaths doc [] (fun fileLines path method operation =>
                let info := generateOperationTypeInfo method path operation
                let name := createClientFunctionName method path
                let argsInterfaceName := capitalize name ++ "Args"
                let argsInterfaceLines := ["  baseUrl?: string,"]
                let argsInterfaceLines := match info.pathParamsType with
                  | some t => argsInterfaceLines ++ ["  params: " ++ t ++ ","]
                  | none => argsInterfaceLines
                let argsInterfaceLines := match info.queryParamsType with
                  | some t => argsInterfaceLines ++ ["  query: " ++ t ++ ","]
                  | none => argsInterfaceLines
                let argsInterfaceLines := match info.requestType with
                  | some t => argsInterfaceLines ++ ["  body: " ++ t ++ ","]
                  | none => argsInterfaceLines
                let argsInterfaceLines := argsInterfaceLines ++ ["  headers?: Record<string, string>,"]
                let interfaceDecl := "export interface " ++ argsInterfaceName ++ " \x7b\n"
                  ++ joinSep "\n" argsInterfaceLines ++ "\n\x7d"
                let finalRequestType := info.requestType.getD "undefined"
                let finalResponseType := info.responseType.getD "undefined"
                let finalPathParamsType := info.pathParamsType.getD "\x7b\x7d"
                let finalQueryParamsType := info.queryParamsType.getD "\x7b\x7d"
                let functionDecl := "export const " ++ name ++ " = (\n  args: "
                  ++ argsInterfaceName ++ "\n) => \x7b\n  return httpRequest<"
                  ++ finalRequestType ++ ", " ++ finalPathParamsType ++ ", "
                  ++ finalQueryParamsType ++ ", " ++ finalResponseType ++ ">(\x7b\n    baseUrl: args.baseUrl ?? \""
                  ++ baseUrl ++ "\",\n    path: \"" ++ path ++ "\",\n    method: \""
                  ++ toUpperJs method ++ "\",\n    ...args,\n  \x7d);\n\x7d"
                fileLines ++ [interfaceDecl, functionDecl]))

/-! ### Helper lemmas -/

theorem append_ne_empty {s : String} (t : String) (h : s ≠ "") : s ++ t ≠ "" := by
  intro he
  apply h
  apply String.ext
  have hd := congrArg String.data he
  rw [String.data_append] at hd
  rcases List.append_eq_nil.mp hd with ⟨h1, _⟩
  exact h1

theorem ne_of_data_head_ne {s t : String} (h : s.data.head? ≠ t.data.head?) : s ≠ t := by
  intro he
  exact h (by rw [he])

theorem natToJsChars_head_digit (m : Nat) :
    ∃ d, d < 10 ∧ (natToJsChars m).head? = some (digitCharJs d) := by
  induction m using natToJsChars.induct with
  | case1 n h =>
      exact ⟨n, h, by rw [natToJsChars]; simp [h]⟩
  | case2 n h ih =>
      obtain ⟨d, hd, hh⟩ := ih
      refine ⟨d, hd, ?_⟩
      rw [natToJsChars]
      simp only [h, dite_false]
      rw [List.head?_append, hh]
      rfl

theorem intToJsString_head (n : Int) :
    (intToJsString n).data.head? = some '-' ∨
    ∃ d, d < 10 ∧ (intToJsString n).data.head? = some (digitCharJs d) := by
  unfold intToJsString
  split
  · left
    rw [String.data_append]
    rfl
  · right
    obtain ⟨d, hd, hh⟩ := natToJsChars_head_digit (Int.toNat n)
    exact ⟨d, hd, hh⟩

theorem digitCharJs_ne_u {d : Nat} (h : d < 10) : digitCharJs d ≠ 'u' := by
  interval_cases d <;> decide

theorem intToJsString_ne_undefined (n : Int) : intToJsString n ≠ "undefined" := by
  apply ne_of_data_head_ne
  rcases intToJsString_head n with h | ⟨d, hd, h⟩ <;> rw [h]
  · decide
  · simp only [ne_eq, Option.some.injEq]
    exact fun hc => digitCharJs_ne_u hd (by simpa using hc)

/-- Runtime kinds of a default value that the generator's
`stringifyDefault` supports: string, number, boolean, `null`, array and
plain object (the kinds named by the specification's data model as
"literal" default values). -/
def isLiteralKind : Js → Bool
  | .undef => false
  | .other => false
  | _ => true

theorem ne_undefined_of_head {s : String} {c : Char} (h1 : s.data.head? = some c)
    (h2 : c ≠ 'u') : s ≠ "undefined" := by
  apply ne_of_data_head_ne
  rw [h1]
  intro hc
  exact h2 (by injection hc)

theorem stringifyDefault_ne_undefined {d : Js} (h : isLiteralKind d = true) :
    stringifyDefault d ≠ "undefined" := by
  cases d with
  | null => simp [stringifyDefault]
  | undef => exact absurd h (by decide)
  | other => exact absurd h (by decide)
  | str s =>
      have e : stringifyDefault (.str s) = "\"" ++ escQuotes s ++ "\"" := by
        simp [stringifyDefault]
      rw [e]
      exact ne_undefined_of_head (c := '"') rfl (by decide)
  | num n =>
      have e : stringifyDefault (.num n) = intToJsString n := by simp [stringifyDefault]
      rw [e]
      exact intToJsString_ne_undefined n
  | bool b =>
      have e : stringifyDefault (.bool b) = if b then "true" else "false" := by
        simp [stringifyDefault]
      rw [e]
      cases b <;> simp
  | arr xs =>
      have e : stringifyDefault (.arr xs) =
          "[" ++ joinSep ", " (stringifyDefaultList xs) ++ "]" := by
        simp [stringifyDefault]
      rw [e]
      exact ne_undefined_of_head (c := '[') rfl (by decide)
  | obj fs =>
      have e : stringifyDefault (.obj fs) =
          "\x7b" ++ joinSep "," (jsonObjFields fs) ++ "\x7d" := by
        simp [stringifyDefault, jsonStringify, jsonValue]
      rw [e]
      exact ne_undefined_of_head (c := '\x7b') rfl (by decide)

theorem createZodSchema_withCommon (n : SchemaNode) (c : CommonAttrs) :
    createZodSchema (n.withCommon c) = createZodSchema n := by
  cases n with
  | objNode props required c0 => cases props <;> simp [SchemaNode.withCommon, createZodSchema]
  | strNode f p mn mx e c0 => cases e <;> simp [SchemaNode.withCommon, createZodSchema]
  | _ => simp [SchemaNode.withCommon, createZodSchema]

theorem common_withCommon (n : SchemaNode) (c : CommonAttrs) :
    (n.withCommon c).common = c := by
  cases n <;> rfl

theorem strJoin_filter_empty (g : String → String) (hg : g "" = "") :
    ∀ l : List String, strJoin ((l.filter (fun p => p ≠ "")).map g) = strJoin (l.map g) := by
  intro l
  induction l with
  | nil => rfl
  | cons a t ih =>
      by_cases ha : a = ""
      · subst ha
        simpa [strJoin, hg] using ih
      · simp only [ne_eq, decide_not] at ih ⊢
        simp [strJoin, ha, ih]

theorem resolveRef_append (b : String) :
    resolveRef ("#/components/schemas/" ++ b) = b := by
  unfold resolveRef
  simp only [String.data_append]
  rw [if_pos (List.isPrefixOf_iff_prefix.mpr (List.prefix_append _ _))]
  rw [List.drop_left]

/-! ### Claim theorems -/

/-- C5: the name deriver is a pure deterministic function of
(method, path, suffix): the handler name for `get /pets/{id}` is
`getPetsIdHandler`, the client-function name for `post /pets` is
`postPets`, the request-body schema name for `POST /pets` is
`PostPetsRequestBody`, and `createSchemaName` implements the specified
algorithm — split the path on `/`, discard empty segments (the source
keeps them, but they normalize to the empty string, proved here), strip
braces, split segments on `_`, capitalize sub-tokens, concatenate in path
order, prepend the capitalized method and append the suffix verbatim.
Purity and determinism are inherent: the derivers are plain functions of
their arguments. -/
theorem c5_name_derivation :
    createHandlerName "get" "/pets/\x7bid\x7d" = "getPetsIdHandler"
    ∧ createClientFunctionName "post" "/pets" = "postPets"
    ∧ createRequestBodySchemaName "post" "/pets" = "PostPetsRequestBody"
    ∧ ∀ method path suffix : String,
        createSchemaName method path suffix =
          capitalize method
            ++ strJoin (((jsSplit '/' path).filter (fun p => p ≠ "")).map
                (fun part => capitalize (normalizeSegment part)))
            ++ suffix := by
  refine ⟨by decide, by decide, by decide, ?_⟩
  intro method path suffix
  unfold createSchemaName
  rw [strJoin_filter_empty (fun part => capitalize (normalizeSegment part)) rfl]

/-- Document whose components are two mutually referencing schemas. -/
def mutualRefDoc (a b : String) : OpenApiDocument :=
  { componentSchemas :=
      some [(a, .refNode ("#/components/schemas/" ++ b) {}),
            (b, .refNode ("#/components/schemas/" ++ a) {})] }

/-- Document with a single self-referencing component schema. -/
def selfRefDoc (a : String) : OpenApiDocument :=
  { componentSchemas := some [(a, .refNode ("#/components/schemas/" ++ a) {})] }

/-- C6: mutually referencing component schemas (and a self-referencing
one) compile, each reference translating to the deferred expression
`z.lazy(() => <Target>Schema)`; the translation of a reference never
expands the target's definition (the output names the target but does not
contain its translation). -/
theorem c6_cycle_safety : ∀ a b : String, a ≠ b →
    generateSchemas (mutualRefDoc a b)
      = [(a, "z.lazy(() => " ++ b ++ "Schema)"), (b, "z.lazy(() => " ++ a ++ "Schema)")]
    ∧ generateSchemas (selfRefDoc a)
      = [(a, "z.lazy(() => " ++ a ++ "Schema)")] := by
  intro a b hab
  have hba : (a == b) = false := beq_eq_false_iff_ne.mpr hab
  constructor
  · simp [mutualRefDoc, generateSchemas, foldPaths, recordSet, hba, createZodSchema,
      createZodRef, resolveRef_append]
  · simp [selfRefDoc, generateSchemas, foldPaths, recordSet, createZodSchema,
      createZodRef, resolveRef_append]

/-- Closed witness for C6 at the concrete component names `A` and `B`. -/
theorem c6_cycle_safety_witness :
    generateSchemas (mutualRefDoc "A" "B")
      = [("A", "z.lazy(() => BSchema)"), ("B", "z.lazy(() => ASchema)")] :=
  (c6_cycle_safety "A" "B" (by decide)).1

theorem createZodString_ne_empty (format pattern : Option String)
    (minLength maxLength : Option Int) : createZodString format pattern minLength maxLength ≠ "" := by
  unfold createZodString
  dsimp only
  repeat' split
  all_goals repeat first | decide | apply append_ne_empty

theorem createZodNumber_ne_empty (isInt : Bool) (minimum maximum : Option Int) :
    createZodNumber isInt minimum maximum ≠ "" := by
  unfold createZodNumber
  dsimp only
  repeat' split
  all_goals repeat first | decide | apply append_ne_empty

/-- C7: the schema translator is total — every schema node, including
nodes whose kind is missing or unrecognized, yields a (non-empty)
expression without erroring, and unrecognized kinds yield the permissive
`z.any()`. -/
theorem c7_translator_total :
    (∀ n : SchemaNode, createZodSchema n ≠ "") ∧
    (∀ c : CommonAttrs, createZodSchema (.otherNode c) = "z.any()") := by
  constructor
  · intro n
    cases n with
    | objNode props required c0 =>
        cases props with
        | none =>
            have e : createZodSchema (.objNode none required c0)
                = createZodObjectHelper (zodPropertyPairs [] required) := by
              simp [createZodSchema, createZodObjectFromProperties]
            rw [e]
            unfold createZodObjectHelper
            repeat first | decide | apply append_ne_empty
        | some l =>
            have e : createZodSchema (.objNode (some l) required c0)
                = createZodObjectHelper (zodPropertyPairs l required) := by
              simp [createZodSchema, createZodObjectFromProperties]
            rw [e]
            unfold createZodObjectHelper
            repeat first | decide | apply append_ne_empty
    | strNode f p mn mx e0 c0 =>
        cases e0 with
        | none =>
            have e : createZodSchema (.strNode f p mn mx none c0)
                = createZodString f p mn mx := by simp [createZodSchema]
            rw [e]
            exact createZodString_ne_empty f p mn mx
        | some vs =>
            have e : createZodSchema (.strNode f p mn mx (some vs) c0)
                = createZodEnum vs := by simp [createZodSchema]
            rw [e]
            unfold createZodEnum
            repeat first | decide | apply append_ne_empty
    | numNode isInt mn mx c0 =>
        have e : createZodSchema (.numNode isInt mn mx c0)
            = createZodNumber isInt mn mx := by simp [createZodSchema]
        rw [e]
        exact createZodNumber_ne_empty isInt mn mx
    | boolNode c0 =>
        have e : createZodSchema (.boolNode c0) = "z.boolean()" := by
          simp [createZodSchema, createZodBoolean]
        rw [e]
        decide
    | arrNode items mn mx c0 =>
        have e : createZodSchema (.arrNode items mn mx c0)
            = createZodArray items mn mx := by simp [createZodSchema]
        rw [e]
        unfold createZodArray
        dsimp only
        repeat' split
        all_goals repeat first | decide | apply append_ne_empty
    | refNode r c0 =>
        have e : createZodSchema (.refNode r c0)
            = "z.lazy(() => " ++ resolveRef r ++ "Schema)" := by
          simp [createZodSchema, createZodRef]
        rw [e]
        repeat first | decide | apply append_ne_empty
    | otherNode c0 =>
        have e : createZodSchema (.otherNode c0) = "z.any()" := by
          simp [createZodSchema, createZodAny]
        rw [e]
        decide
  · intro c
    simp [createZodSchema, createZodAny]

/-- Closed witness for C7: a node with an unrecognized kind translates to
`z.any()`, and a recognized node translates to a non-empty expression. -/
theorem c7_translator_total_witness :
    createZodSchema (.otherNode {}) = "z.any()"
    ∧ createZodSchema (.boolNode {}) ≠ "" :=
  ⟨c7_translator_total.2 {}, c7_translator_total.1 (.boolNode {})⟩

/-- C10: a string-kinded node that also carries an enum literal list
translates to the ordered enum alternation; format, pattern and length
bounds on the same node have no effect (the enum branch is selected before
the string branch). -/
theorem c10_enum_discards_string_constraints :
    ∀ (format pattern : Option String) (minLength maxLength : Option Int)
      (vs : List String) (c : CommonAttrs), vs ≠ [] →
      createZodSchema (.strNode format pattern minLength maxLength (some vs) c) = createZodEnum vs
      ∧ createZodSchema (.strNode format pattern minLength maxLength (some vs) c)
          = createZodSchema (.strNode none none none none (some vs) c) := by
  intro f p mn mx vs c _
  constructor <;> simp [createZodSchema]

/-- Closed witness for C10: a node with enum `["cat", "dog"]` and all four
string constraints set still translates to the bare enum alternation. -/
theorem c10_enum_discards_string_constraints_witness :
    createZodSchema (.strNode (some "email") (some "^a$") (some 1) (some 3)
        (some ["cat", "dog"]) {}) = "z.enum([\"cat\", \"dog\"])" := by
  have h := (c10_enum_discards_string_constraints (some "email") (some "^a$")
    (some 1) (some 3) ["cat", "dog"] {} (by decide)).1
  rw [h]
  decide

/-- C4: an object property's expression is the recursive translation of
the property schema with modifiers applied in exactly this order:
(a) `.nullable()` iff the `nullable` flag is set, (b) `.optional()` iff
the property name is absent from the object's required-name set (so a
required property is never wrapped as optional), (c) `.default(...)` iff a
default is present, (d) `.describe(...)` iff a description is present.
The hypothesis restricts defaults to the data model's literal kinds
(string, number, boolean, null, array, plain object), for which the
stringification never degenerates to the `"undefined"` sentinel. -/
theorem c4_object_property_pipeline :
    ∀ (required : Option (List String)) (propertyName : String) (property : SchemaNode),
      (∀ d, property.common.default = some d → isLiteralKind d = true) →
      createZodObjectProperty required propertyName property =
        (let base := createZodSchema property
         let s1 := if property.common.nullable then base ++ ".nullable()" else base
         let s2 := if (required.getD []).contains propertyName then s1 else s1 ++ ".optional()"
         let s3 := match property.common.default with
           | some d => s2 ++ ".default(" ++ stringifyDefault d ++ ")"
           | none => s2
         match property.common.description with
         | some d => s3 ++ ".describe(" ++ jsonStr d ++ ")"
         | none => s3) := by
  intro required propertyName property h
  unfold createZodObjectProperty
  cases hd : property.common.default with
  | none => cases required <;> simp [hd]
  | some d =>
      have hs : stringifyDefault d ≠ "undefined" := stringifyDefault_ne_undefined (h d hd)
      cases required <;> simp [hd, hs]

/-- Concrete nullable, optional, defaulted and described property used to
witness C4. -/
def c4Property : SchemaNode :=
  .strNode none none none none none
    { nullable := true, default := some (.num 5), description := some "the name" }

/-- Closed witness for C4: the pipeline applied to a concrete property
whose name is not in the required set. -/
theorem c4_object_property_pipeline_witness :
    createZodObjectProperty (some ["other"]) "name" c4Property
      = "z.string().nullable().optional().default(5).describe(\"the name\")" := by
  have h := c4_object_property_pipeline (some ["other"]) "name" c4Property
    (by intro d hd
        have : Js.num 5 = d := by
          simpa [c4Property, SchemaNode.common] using hd
        rw [← this]
        decide)
  rw [h]
  simp [c4Property, SchemaNode.common, createZodSchema, createZodString, stringifyDefault,
    intToJsString, natToJsChars, digitCharJs, jsonStr, jsonEscape]

/-- The object property corresponding to a `Parameter` under the claimed
parameter/property correspondence: the parameter's schema node carrying
the parameter's own `nullable`, `default` and `description` attributes. -/
def propertyOfParameter (p : OpenApiParameter) : SchemaNode :=
  p.schema.withCommon
    { nullable := p.nullable.getD false, default := p.default, description := p.description }

/-- The trailing `.default(...)`/`.describe(...)` modifiers shared by the
property and parameter pipelines, as a suffix string. -/
def defaultDescribeTail (d : Option Js) (description : Option String) : String :=
  (match d with
   | some v =>
       let defaultValue := stringifyDefault v
       if defaultValue ≠ "undefined" then ".default(" ++ defaultValue ++ ")" else ""
   | none => "") ++
  (match description with
   | some t => ".describe(" ++ jsonStr t ++ ")"
   | none => "")

/-- Parameter on which the claimed parameter/property correspondence
fails: optional (`required = false`) and nullable. -/
def c1Parameter : OpenApiParameter :=
  { name := "x", location := "query", schema := .boolNode {},
    required := some false, nullable := some true }

/-- Counterexample to C1: for an optional nullable parameter the code
emits `.optional().nullable()` (optional wrapper first), while the
object-property pipeline emits `.nullable().optional()` — so parameter
translation does not equal object-property translation with membership in
the required set matching the required flag. -/
theorem c1_counterexample :
    createZodObjectPropertyFromParameter c1Parameter = "z.boolean().optional().nullable()"
    ∧ createZodObjectProperty (some []) "x" (propertyOfParameter c1Parameter)
        = "z.boolean().nullable().optional()"
    ∧ createZodObjectPropertyFromParameter c1Parameter
        ≠ createZodObjectProperty (some []) "x" (propertyOfParameter c1Parameter) := by
  have h1 : createZodObjectPropertyFromParameter c1Parameter
      = "z.boolean().optional().nullable()" := by
    simp [c1Parameter, createZodObjectPropertyFromParameter, createZodSchema, createZodBoolean]
  have h2 : createZodObjectProperty (some []) "x" (propertyOfParameter c1Parameter)
      = "z.boolean().nullable().optional()" := by
    simp [c1Parameter, propertyOfParameter, SchemaNode.withCommon, createZodObjectProperty,
      SchemaNode.common, createZodSchema, createZodBoolean]
  refine ⟨h1, h2, ?_⟩
  rw [h1, h2]
  decide

/-- C1 amended: parameter translation applies the same modifier set under
the same conditions as object-property translation, but with the first two
wrappers in the opposite order — `.optional()` (governed by the
parameter's own required flag) before `.nullable()` — followed by the same
default and description modifiers; consequently it coincides with
object-property translation (with required-set membership iff the required
flag) exactly when the parameter is required or not nullable. -/
theorem c1_parameter_pipeline_amended :
    ∀ p : OpenApiParameter,
      createZodObjectPropertyFromParameter p =
        (let base := createZodSchema p.schema
         let s1 := if p.required.getD false then base else base ++ ".optional()"
         let s2 := if p.nullable.getD false then s1 ++ ".nullable()" else s1
         s2 ++ defaultDescribeTail p.default p.description)
      ∧ (p.required.getD false = true ∨ p.nullable.getD false = false →
          createZodObjectPropertyFromParameter p =
            createZodObjectProperty (if p.required.getD false then some [p.name] else some [])
              p.name (propertyOfParameter p)) := by
  intro p
  constructor
  · unfold createZodObjectPropertyFromParameter defaultDescribeTail
    cases hd : p.default with
    | none =>
        cases hdesc : p.description <;>
          cases hr : p.required.getD false <;>
            cases hn : p.nullable.getD false <;>
              (simp [hd, hdesc, hr, hn] <;> (apply String.ext; simp [String.data_append]))
    | some d =>
        by_cases hs : stringifyDefault d = "undefined" <;>
          cases hdesc : p.description <;>
            cases hr : p.required.getD false <;>
              cases hn : p.nullable.getD false <;>
                (simp [hd, hdesc, hr, hn, hs] <;> (apply String.ext; simp [String.data_append]))
  · intro hcase
    unfold createZodObjectPropertyFromParameter createZodObjectProperty propertyOfParameter
    rw [createZodSchema_withCommon, common_withCommon]
    rcases hcase with hr | hn
    · simp [hr]
    · cases hr2 : p.required.getD false
      · simp [hn, hr2]
      · simp [hn, hr2]

/-- Required nullable parameter used to witness the agreement case of the
amended C1. -/
def c1RequiredParameter : OpenApiParameter :=
  { name := "y", location := "path", schema := .boolNode {},
    required := some true, nullable := some true, description := some "req" }

/-- Closed witness for the amended C1: a required (hence never optional)
nullable parameter translates exactly like the corresponding object
property, and the amended pipeline reproduces the counterexample
parameter's translation. -/
theorem c1_parameter_pipeline_amended_witness :
    createZodObjectPropertyFromParameter c1RequiredParameter
      = createZodObjectProperty (some ["y"]) "y" (propertyOfParameter c1RequiredParameter)
    ∧ createZodObjectPropertyFromParameter c1Parameter
      = "z.boolean().optional().nullable()" := by
  constructor
  · exact (c1_parameter_pipeline_amended c1RequiredParameter).2 (Or.inl rfl)
  · have h := (c1_parameter_pipeline_amended c1Parameter).1
    rw [h]
    simp [c1Parameter, defaultDescribeTail, createZodSchema, createZodBoolean]

/-- Property whose default value has an unsupported runtime kind
(function or symbol). -/
def c2Property : SchemaNode := .boolNode { default := some .other }

/-- Counterexample to C2: translating a property whose default has an
unsupported runtime kind does not fail — the translator has no error
channel and returns a plain expression — and the default is silently
dropped: the output contains no `.default(` wrapper at all. -/
theorem c2_counterexample :
    createZodObjectProperty none "p" c2Property = "z.boolean().optional()"
    ∧ stringifyDefault Js.other = "undefined"
    ∧ ¬ (".default(".data <:+: ("z.boolean().optional()").data) := by
  refine ⟨?_, ?_, by decide⟩
  · simp [c2Property, createZodObjectProperty, SchemaNode.common, createZodSchema,
      createZodBoolean, stringifyDefault]
  · simp [stringifyDefault]

/-- C2 amended: a default whose runtime kind is outside the supported set
{string, number, boolean, null, array, plain object} does not fail
translation with a `SchemaParseError` (that error class is never thrown by
the translator); instead `stringifyDefault` yields the `"undefined"`
sentinel and the `.default(...)` wrapper is silently omitted — the node
translates exactly as if it carried no default, for both object
properties and parameters. -/
theorem c2_default_sentinel_amended :
    (∀ (required : Option (List String)) (propertyName : String) (property : SchemaNode) (d : Js),
        property.common.default = some d →
        stringifyDefault d = "undefined" →
        createZodObjectProperty required propertyName property =
          createZodObjectProperty required propertyName
            (property.withCommon { property.common with default := none }))
    ∧ (∀ (parameter : OpenApiParameter) (d : Js),
        parameter.default = some d →
        stringifyDefault d = "undefined" →
        createZodObjectPropertyFromParameter parameter =
          createZodObjectPropertyFromParameter { parameter with default := none }) := by
  constructor
  · intro required propertyName property d hd hs
    unfold createZodObjectProperty
    rw [createZodSchema_withCommon, common_withCommon]
    simp [hd, hs]
  · intro parameter d hd hs
    unfold createZodObjectPropertyFromParameter
    simp [hd, hs]

/-- Parameter with an unsupported default runtime kind, used to witness
the amended C2. -/
def c2Parameter : OpenApiParameter :=
  { name := "q", location := "query", schema := .boolNode {}, default := some .other }

/-- Closed witness for the amended C2 at concrete inputs. -/
theorem c2_default_sentinel_amended_witness :
    createZodObjectProperty none "p" c2Property =
      createZodObjectProperty none "p"
        (c2Property.withCommon { c2Property.common with default := none })
    ∧ createZodObjectPropertyFromParameter c2Parameter =
      createZodObjectPropertyFromParameter { c2Parameter with default := none } := by
  constructor
  · exact c2_default_sentinel_amended.1 none "p" c2Property .other rfl (by simp [stringifyDefault])
  · exact c2_default_sentinel_amended.2 c2Parameter .other rfl (by simp [stringifyDefault])

/-- A minimal operation with a 200 JSON response. -/
def c3Operation : OpenApiOperation :=
  { response200schema := some (.boolNode {}) }

/-- Document with one path and operation and an empty (zero-element)
server list. -/
def c3EmptyServersDoc : OpenApiDocument :=
  { servers := some [], paths := some [("/pets", [("get", c3Operation)])] }

/-- Document with one path and operation and no `servers` field at all. -/
def c3NoServersDoc : OpenApiDocument :=
  { servers := none, paths := some [("/pets", [("get", c3Operation)])] }

/-- Counterexample to C3: on a document with one path and zero servers,
client emission does fail, but not with a `ValidationError`: an empty
server list fails with the `TypeError` of reading `url` on
`servers[0] = undefined`, and an absent `servers` field fails with a plain
generic `Error` — the repository's `ValidationError` class is never
thrown. -/
theorem c3_counterexample :
    generateClients c3EmptyServersDoc
      = .error (.typeError "Cannot read properties of undefined (reading 'url')")
    ∧ generateClients c3NoServersDoc
      = .error (.genericError "No servers found in OpenAPI document")
    ∧ generateHandlerTypes c3EmptyServersDoc
      = ["export type getPetsHandler = Handler<undefined, \x7b\x7d, \x7b\x7d, GetPetsResponseBody>;"] := by
  refine ⟨rfl, rfl, ?_⟩
  simp [c3EmptyServersDoc, c3Operation, generateHandlerTypes, foldPaths,
    generateOperationTypeInfo, createHandlerName, createResponseBodySchemaName,
    createSchemaName, capitalize, normalizeSegment, jsSplit, splitChars, strJoin]

/-- C3 amended: for every document that declares a path list, client
emission with an absent `servers` field throws a plain generic `Error`,
and with an empty server list throws a `TypeError` — in neither case a
`ValidationError` — while handler-type emission never consults the server
list: its output is invariant under replacing `servers`. -/
theorem c3_servers_amended :
    ∀ (doc : OpenApiDocument) (ps : List (String × List (String × OpenApiOperation))),
      doc.paths = some ps →
      (doc.servers = none →
        generateClients doc = .error (.genericError "No servers found in OpenAPI document"))
      ∧ (doc.servers = some [] →
        generateClients doc
          = .error (.typeError "Cannot read properties of undefined (reading 'url')"))
      ∧ (∀ s, generateHandlerTypes { doc with servers := s } = generateHandlerTypes doc) := by
  intro doc ps hp
  refine ⟨?_, ?_, ?_⟩
  · intro hs
    unfold generateClients
    rw [hp, hs]
  · intro hs
    unfold generateClients
    rw [hp, hs]
  · intro s
    cases doc
    rfl

/-- Closed witness for the amended C3 at the concrete documents. -/
theorem c3_servers_amended_witness :
    generateClients c3NoServersDoc
      = .error (.genericError "No servers found in OpenAPI document")
    ∧ generateHandlerTypes { c3NoServersDoc with servers := some ["http://example"] }
      = generateHandlerTypes c3NoServersDoc := by
  constructor
  · exact (c3_servers_amended c3NoServersDoc [("/pets", [("get", c3Operation)])] rfl).1 rfl
  · exact (c3_servers_amended c3NoServersDoc [("/pets", [("get", c3Operation)])] rfl).2.2
      (some ["http://example"])

theorem foldl_preserves {α β : Type} (P : α → Prop) (f : α → β → α)
    (hstep : ∀ a b, P a → P (f a b)) :
    ∀ (l : List β) (a : α), P a → P (l.foldl f a) := by
  intro l
  induction l with
  | nil => intro a ha; exact ha
  | cons x xs ih => intro a ha; exact ih (f a x) (hstep a x ha)

theorem foldPaths_preserves {α : Type} (P : α → Prop) (doc : OpenApiDocument)
    (f : α → String → String → OpenApiOperation → α)
    (hstep : ∀ a path method op, P a → P (f a path method op)) :
    ∀ init, P init → P (foldPaths doc init f) := by
  intro init hinit
  unfold foldPaths
  cases doc.paths with
  | none => exact hinit
  | some paths =>
      refine foldl_preserves P _ ?_ paths init hinit
      intro a pathItem ha
      refine foldl_preserves P _ ?_ pathItem.2 a ha
      intro a' methodOp ha'
      exact hstep a' pathItem.1 methodOp.1 methodOp.2 ha'

/-- The keys of a record are pairwise distinct. -/
abbrev keysNodup (m : List (String × String)) : Prop := (m.map Prod.fst).Nodup

theorem recordSet_keys_nodup {m : List (String × String)} {k v : String}
    (h : keysNodup m) : keysNodup (recordSet m k v) := by
  unfold recordSet
  split
  · have hkeys : (m.map (fun kv => if kv.1 == k then (k, v) else kv)).map Prod.fst
        = m.map Prod.fst := by
      rw [List.map_map]
      apply List.map_congr_left
      intro kv _
      by_cases hkv : kv.1 == k
      · simp only [Function.comp, hkv, if_pos]
        exact (eq_of_beq hkv).symm
      · simp only [Function.comp, hkv, if_neg]
        rfl
    show ((m.map (fun kv => if kv.1 == k then (k, v) else kv)).map Prod.fst).Nodup
    rw [hkeys]
    exact h
  · rename_i hany
    show ((m ++ [(k, v)]).map Prod.fst).Nodup
    rw [List.map_append, List.nodup_append]
    refine ⟨h, List.nodup_singleton k, ?_⟩
    intro x hx hk
    have hxk : x = k := by simpa using hk
    obtain ⟨kv, hkv, hfst⟩ := List.mem_map.mp hx
    apply hany
    refine List.any_eq_true.mpr ⟨kv, hkv, ?_⟩
    rw [hfst, hxk]
    exact beq_self_eq_true k

/-- C8 amended: a single compilation's `NamedSchema` record has unique
names as a `Record` invariant — assignment on a colliding name overwrites
the earlier entry in place rather than duplicating the key — but a name is
not necessarily assigned only once: a later synthesized schema whose
derived name equals an earlier entry's name replaces that entry (see the
counterexample). -/
theorem c8_unique_names_amended :
    ∀ doc : OpenApiDocument, ((generateSchemas doc).map Prod.fst).Nodup := by
  intro doc
  show keysNodup (generateSchemas doc)
  unfold generateSchemas
  refine foldPaths_preserves keysNodup doc _ ?_ _
    (foldPaths_preserves keysNodup doc _ ?_ _
      (foldPaths_preserves keysNodup doc _ ?_ _
        (foldPaths_preserves keysNodup doc _ ?_ _
          (foldl_preserves keysNodup _ ?_ _ [] List.nodup_nil))))
  · intro a path method op ha
    repeat' split
    all_goals try dsimp only
    all_goals try repeat' split
    all_goals first | exact recordSet_keys_nodup ha | exact ha
  · intro a path method op ha
    repeat' split
    all_goals try dsimp only
    all_goals try repeat' split
    all_goals first | exact recordSet_keys_nodup ha | exact ha
  · intro a path method op ha
    repeat' split
    all_goals first | exact recordSet_keys_nodup ha | exact ha
  · intro a path method op ha
    repeat' split
    all_goals first | exact recordSet_keys_nodup ha | exact ha
  · intro a kv ha
    exact recordSet_keys_nodup ha

/-- Document whose component mapping itself uses the name that request-body
synthesis for `POST /pets` will derive. -/
def c8CollisionDoc : OpenApiDocument :=
  { componentSchemas := some [("PostPetsRequestBody", .boolNode {})],
    paths := some [("/pets",
      [("post",
        { requestBody := some { required := false,
                                schema := some (.numNode false none none {}) } })])] }

/-- The same document without the paths (so only the component schema is
compiled). -/
def c8ComponentOnlyDoc : OpenApiDocument :=
  { componentSchemas := some [("PostPetsRequestBody", .boolNode {})] }

/-- Counterexample to C8: the component schema named `PostPetsRequestBody`
alone compiles to `z.boolean()`, but adding the operation `POST /pets`
(whose synthesized request-body name is also `PostPetsRequestBody`) makes
the later request-body entry overwrite the earlier component entry — the
final record maps the name to the request body's `z.number()`. -/
theorem c8_counterexample :
    generateSchemas c8ComponentOnlyDoc = [("PostPetsRequestBody", "z.boolean()")]
    ∧ generateSchemas c8CollisionDoc = [("PostPetsRequestBody", "z.number()")] := by
  constructor
  · simp [c8ComponentOnlyDoc, generateSchemas, foldPaths, recordSet, createZodSchema,
      createZodBoolean]
  · simp [c8CollisionDoc, generateSchemas, foldPaths, recordSet, createZodSchema,
      createZodBoolean, createZodNumber, requestBodySchemaForZod,
      createRequestBodySchemaName, createSchemaName, capitalize, normalizeSegment,
      jsSplit, splitChars, strJoin]

theorem foldl_snd_eq {α β γ : Type} (h : (α × γ) → β → (α × γ))
    (hsnd : ∀ st x, (h st x).2 = st.2) :
    ∀ (l : List β) (st : α × γ), (l.foldl h st).2 = st.2 := by
  intro l
  induction l with
  | nil => intro st; rfl
  | cons x xs ih => intro st; rw [List.foldl_cons, ih (h st x), hsnd]

theorem foldl_fst_eq {α β γ : Type} (h : (α × γ) → β → (α × γ)) (f : α → β → α)
    (hfst : ∀ st x, (h st x).1 = f st.1 x) :
    ∀ (l : List β) (st : α × γ), (l.foldl h st).1 = l.foldl f st.1 := by
  intro l
  induction l with
  | nil => intro st; rfl
  | cons x xs ih =>
      intro st
      rw [List.foldl_cons, List.foldl_cons, ih (h st x), hfst]

theorem foldPaths_snd_eq {α : Type} (d : OpenApiDocument)
    (h : (α × OpenApiDocument) → String → String → OpenApiOperation → (α × OpenApiDocument))
    (hsnd : ∀ st path method op, (h st path method op).2 = st.2) :
    ∀ st, (foldPaths d st h).2 = st.2 := by
  intro st
  unfold foldPaths
  cases d.paths with
  | none => rfl
  | some paths =>
      refine foldl_snd_eq _ ?_ paths st
      intro st' pathItem
      exact foldl_snd_eq _ (fun st'' mo => hsnd st'' pathItem.1 mo.1 mo.2) pathItem.2 st'

theorem foldPaths_fst_eq {α : Type} (d : OpenApiDocument)
    (h : (α × OpenApiDocument) → String → String → OpenApiOperation → (α × OpenApiDocument))
    (f : α → String → String → OpenApiOperation → α)
    (hfst : ∀ st path method op, (h st path method op).1 = f st.1 path method op) :
    ∀ st, (foldPaths d st h).1 = foldPaths d st.1 f := by
  intro st
  unfold foldPaths
  cases d.paths with
  | none => rfl
  | some paths =>
      refine foldl_fst_eq _ _ ?_ paths st
      intro st' pathItem
      refine foldl_fst_eq _ _ ?_ pathItem.2 st'
      exact fun st2 mo => hfst st2 pathItem.1 mo.1 mo.2

/-- State-threaded component pass of `generateSchemas`: the record is
updated, the document travels through unchanged (the loop body only reads
`openApiDocument.components` and assigns into the local record). -/
def componentsPassT (st : List (String × String) × OpenApiDocument) :
    List (String × String) × OpenApiDocument :=
  (st.2.componentSchemas.getD []).foldl
    (fun st' kv => (recordSet st'.1 kv.1 (createZodSchema kv.2), st'.2)) st

/-- State-threaded request-body pass: the normalization of a required
body's required-name set happens on the shallow copy
(`requestBodySchemaForZod`, modelling `const schemaForZod = { ...schema }`
plus the conditional assignment to the copy), so the document component of
the state is returned as received. -/
def requestBodyPassT (st : List (String × String) × OpenApiDocument) :
    List (String × String) × OpenApiDocument :=
  foldPaths st.2 st (fun st' path method operation =>
    (match operation.requestBody with
     | some requestBody =>
         match requestBody.schema with
         | some schema =>
             recordSet st'.1 (createRequestBodySchemaName method path)
               (createZodSchema (requestBodySchemaForZod requestBody.required schema))
         | none => st'.1
     | none => st'.1, st'.2))

/-- State-threaded response pass. -/
def responsePassT (st : List (String × String) × OpenApiDocument) :
    List (String × String) × OpenApiDocument :=
  foldPaths st.2 st (fun st' path method operation =>
    (match operation.response200schema with
     | some schema =>
         recordSet st'.1 (createResponseBodySchemaName method path) (createZodSchema schema)
     | none => st'.1, st'.2))

/-- State-threaded path-parameter pass. -/
def pathParamsPassT (st : List (String × String) × OpenApiDocument) :
    List (String × String) × OpenApiDocument :=
  foldPaths st.2 st (fun st' path method operation =>
    (match operation.parameters with
     | some parameters =>
         let pathParams := parameters.filter (fun p => p.location == "path")
         if pathParams.length > 0 then
           recordSet st'.1 (createPathParamSchemaName method path)
             (createZodObjectFromParameters pathParams)
         else st'.1
     | none => st'.1, st'.2))

/-- State-threaded query-parameter pass. -/
def queryParamsPassT (st : List (String × String) × OpenApiDocument) :
    List (String × String) × OpenApiDocument :=
  foldPaths st.2 st (fun st' path method operation =>
    (match operation.parameters with
     | some parameters =>
         let queryParams := parameters.filter (fun p => p.location == "query")
         if queryParams.length > 0 then
           recordSet st'.1 (createQueryParamSchemaName method path)
             (createZodObjectFromParameters queryParams)
         else st'.1
     | none => st'.1, st'.2))

/-- `generateSchemas` with the document threaded explicitly through every
pass, so that the absence of document mutation is a provable property
rather than a notational accident. -/
def generateSchemasTracked (doc : OpenApiDocument) :
    List (String × String) × OpenApiDocument :=
  queryParamsPassT (pathParamsPassT (responsePassT (requestBodyPassT
    (componentsPassT ([], doc)))))

/-- One full compilation — schema generation, handler-type emission, client
emission — with the document threaded through schema generation and the
emitters reading the document it produced. -/
def compileTracked (doc : OpenApiDocument) :
    (List (String × String) × List String × Except JsError (List String)) × OpenApiDocument :=
  let schemasAndDoc := generateSchemasTracked doc
  ((schemasAndDoc.1, generateHandlerTypes schemasAndDoc.2, generateClients schemasAndDoc.2),
    schemasAndDoc.2)

theorem componentsPassT_spec (st : List (String × String) × OpenApiDocument) :
    componentsPassT st
      = ((st.2.componentSchemas.getD []).foldl
          (fun acc kv => recordSet acc kv.1 (createZodSchema kv.2)) st.1, st.2) := by
  unfold componentsPassT
  refine Prod.ext ?_ ?_
  · dsimp only
    refine foldl_fst_eq _ _ ?_ _ st
    exact fun st' kv => rfl
  · dsimp only
    refine foldl_snd_eq _ ?_ _ st
    exact fun st' kv => rfl

theorem requestBodyPassT_spec (st : List (String × String) × OpenApiDocument) :
    requestBodyPassT st
      = (foldPaths st.2 st.1 (fun acc path method operation =>
          match operation.requestBody with
          | some requestBody =>
              match requestBody.schema with
              | some schema =>
                  recordSet acc (createRequestBodySchemaName method path)
                    (createZodSchema (requestBodySchemaForZod requestBody.required schema))
              | none => acc
          | none => acc), st.2) := by
  unfold requestBodyPassT
  refine Prod.ext ?_ ?_
  · dsimp only
    refine foldPaths_fst_eq _ _ _ ?_ st
    exact fun st' p m op => rfl
  · dsimp only
    refine foldPaths_snd_eq _ _ ?_ st
    exact fun st' p m op => rfl

theorem responsePassT_spec (st : List (String × String) × OpenApiDocument) :
    responsePassT st
      = (foldPaths st.2 st.1 (fun acc path method operation =>
          match operation.response200schema with
          | some schema =>
              recordSet acc (createResponseBodySchemaName method path) (createZodSchema schema)
          | none => acc), st.2) := by
  unfold responsePassT
  refine Prod.ext ?_ ?_
  · dsimp only
    refine foldPaths_fst_eq _ _ _ ?_ st
    exact fun st' p m op => rfl
  · dsimp only
    refine foldPaths_snd_eq _ _ ?_ st
    exact fun st' p m op => rfl

theorem pathParamsPassT_spec (st : List (String × String) × OpenApiDocument) :
    pathParamsPassT st
      = (foldPaths st.2 st.1 (fun acc path method operation =>
          match operation.parameters with
          | some parameters =>
              let pathParams := parameters.filter (fun p => p.location == "path")
              if pathParams.length > 0 then
                recordSet acc (createPathParamSchemaName method path)
                  (createZodObjectFromParameters pathParams)
              else acc
          | none => acc), st.2) := by
  unfold pathParamsPassT
  refine Prod.ext ?_ ?_
  · dsimp only
    refine foldPaths_fst_eq _ _ _ ?_ st
    exact fun st' p m op => rfl
  · dsimp only
    refine foldPaths_snd_eq _ _ ?_ st
    exact fun st' p m op => rfl

theorem queryParamsPassT_spec (st : List (String × String) × OpenApiDocument) :
    queryParamsPassT st
      = (foldPaths st.2 st.1 (fun acc path method operation =>
          match operation.parameters with
          | some parameters =>
              let queryParams := parameters.filter (fun p => p.location == "query")
              if queryParams.length > 0 then
                recordSet acc (createQueryParamSchemaName method path)
                  (createZodObjectFromParameters queryParams)
              else acc
          | none => acc), st.2) := by
  unfold queryParamsPassT
  refine Prod.ext ?_ ?_
  · dsimp only
    refine foldPaths_fst_eq _ _ _ ?_ st
    exact fun st' p m op => rfl
  · dsimp only
    refine foldPaths_snd_eq _ _ ?_ st
    exact fun st' p m op => rfl

/-- C9: one full compilation — schema generation (including the
request-body pass, whose required-name-set normalization operates only on
the shallow copy of the body schema), handler-type emission and client
emission — leaves the input document unchanged, and the tracked pipeline
computes exactly the untracked results. -/
theorem c9_document_unchanged :
    ∀ doc : OpenApiDocument,
      (compileTracked doc).2 = doc
      ∧ (compileTracked doc).1
          = (generateSchemas doc, generateHandlerTypes doc, generateClients doc) := by
  intro doc
  have h : generateSchemasTracked doc = (generateSchemas doc, doc) := by
    unfold generateSchemasTracked
    rw [componentsPassT_spec, requestBodyPassT_spec, responsePassT_spec,
      pathParamsPassT_spec, queryParamsPassT_spec]
    rfl
  constructor
  · show (compileTracked doc).2 = doc
    unfold compileTracked
    rw [h]
  · unfold compileTracked
    rw [h]

end OpenApiZod
